import Mathlib

/-
  Verification development for the AnSci generated-script validation,
  repair and synchronization engine.

  The Python sources embedded here are:
  - `src/backend/ansci/verify.py` (static validators, the combining
    `validate_generated_manim_code`, the subprocess validator and the
    bounded validate-and-regenerate loop), and
  - `src/render-server/utils/sync_validator.py` (timing extraction,
    sync scoring and correction application), and
  - `src/render-server/utils/validation.py` (the render-server
    `ValidationResult` with `add_error` / `add_warning`).

  Modelling conventions:
  - Python floats are modelled as exact rationals.
  - Python scripts are modelled by a `Script` value carrying the raw text,
    the outcome of `ast.parse` over a small Python AST subset covering the
    constructs the validators inspect, and an oracle for the dynamic
    behaviour of `exec` on the script body (the validators never interpret
    the script themselves; they only react to the outcome).
  - The ambient import machinery (`importlib`) is modelled as an oracle
    mapping module names to outcomes.
  - Python set iteration order is unspecified; sets are modelled as
    first-insertion-ordered duplicate-free lists, and `ast.walk`
    (breadth-first) is modelled in syntactic order.  No theorem below
    depends on the order of independently produced messages.
-/

namespace AnSci

/-- The single-quote character, used to assemble the error messages of the
source that quote identifiers. -/
def sq : String := (Char.ofNat 39).toString

/-- Substring test over character lists, modelling the Python `in` operator
on strings (for a nonempty pattern). -/
def listContains : List Char → List Char → Bool
  | [], pat => pat.isEmpty
  | c :: t, pat => pat.isPrefixOf (c :: t) || listContains t pat

/-- Substring test on strings, modelling the Python `in` operator. -/
def strContains (s pat : String) : Bool := listContains s.data pat.data

/-- Lower-casing, modelling Python `str.lower` on ASCII text. -/
def lowerStr (s : String) : String := String.mk (s.data.map Char.toLower)

/-- Add an element to a Python set modelled as a duplicate-free list. -/
def setAdd (l : List String) (x : String) : List String :=
  if l.any (fun y => y = x) then l else l ++ [x]

/-- First dotted component of a module name, modelling
`name.split(".")[0]`. -/
def firstDotComponent (n : String) : String :=
  ((n.splitOn (".")).headD n)

/-! ## The `ValidationResult` dataclass of `verify.py`

Optional list fields that default to Python `None` and are only ever
consumed behind truthiness checks are modelled as lists defaulting to `[]`.
-/

structure ValidationResult where
  is_valid : Bool
  errors : List String
  warnings : List String
  scene_name : Option String := none
  line_number : Option Nat := none
  error_type : Option String := none
  suggestions : List String := []
  subprocess_stderr : Option String := none
  manim_error_output : Option String := none
  deriving DecidableEq

/-! ## A Python AST subset

`PyExpr` and `PyStmt` cover the node shapes that the validators of
`verify.py` inspect: class and function definitions, assignments to plain
or tuple-of-plain names, imports, expression statements, `while` loops,
names, attribute access, calls (with positional arguments and the value
expressions of keyword arguments), literals, and binary operations. -/

inductive BinOpKind where
  | add | sub | mult | div | other
  deriving DecidableEq

inductive PyExpr where
  | name (id : String)
  | strLit (s : String)
  | numLit (v : ℚ)
  | boolLit (b : Bool)
  | attr (value : PyExpr) (attrName : String)
  | call (func : PyExpr) (args : List PyExpr) (kwargValues : List PyExpr)
  | binop (op : BinOpKind) (lhs rhs : PyExpr)

inductive PyStmt where
  | classDef (name : String) (bases : List String) (body : List PyStmt)
  | funcDef (name : String) (args : List String) (body : List PyStmt)
  | assign (targets : List String) (value : PyExpr)
  | importModules (mods : List String)
  | importFromMod (mod : Option String) (names : List String)
  | exprStmt (e : PyExpr)
  | whileStmt (test : PyExpr) (body : List PyStmt)
  | raiseStmt (e : PyExpr)
  | passStmt

/-- Outcome of `ast.parse` on a script. -/
inductive ParseOutcome where
  | ok (body : List PyStmt)
  | syntaxError (msg : String) (lineno : Nat)

/-- Oracle for the behaviour of `exec` on the script body inside the mock
environment of `validate_runtime_errors`: normal completion, an exception
(a subclass of `Exception`, by class name), or divergence (the body never
returns, e.g. an unconditioned infinite loop). -/
inductive ExecOutcome where
  | normal
  | raises (excType : String) (msg : String)
  | diverges

/-- Oracle for `importlib.import_module` on one module name. -/
inductive ImportOutcome where
  | ok
  | importError
  | otherException (msg : String)

/-- A script: raw text, its parse, and the `exec` oracle.  The parse and
the oracle describe the same text; that consistency is ambient (the model
never re-parses the raw text). -/
structure Script where
  raw : String
  parse : ParseOutcome
  execOutcome : ExecOutcome

/-! ## `PythonCodeValidator.validate_syntax` -/

def validateSyntax (s : Script) : ValidationResult :=
  match s.parse with
  | .ok _ => { is_valid := true, errors := [], warnings := [] }
  | .syntaxError msg lineno =>
      { is_valid := false,
        errors := ["Syntax Error: " ++ msg ++ " at line " ++ toString lineno],
        warnings := [],
        line_number := some lineno }

/-! ## `PythonCodeValidator.validate_manim_specific` -/

/-- Names of the function definitions directly in a class body. -/
def methodNames (body : List PyStmt) : List String :=
  body.filterMap (fun st =>
    match st with
    | .funcDef n _ _ => some n
    | _ => none)

mutual

/-- All class definitions reachable from a statement (as `ast.walk` finds
them), as (name, base names, direct method names). -/
def classesOfStmt : PyStmt → List (String × List String × List String)
  | .classDef n bases body => (n, bases, methodNames body) :: classesOfStmts body
  | .funcDef _ _ body => classesOfStmts body
  | .whileStmt _ body => classesOfStmts body
  | _ => []

def classesOfStmts : List PyStmt → List (String × List String × List String)
  | [] => []
  | st :: rest => classesOfStmt st ++ classesOfStmts rest

end

/-- Whether some class inherits (by plain-name base) from `Scene`. -/
def hasSceneClassB (stmts : List PyStmt) : Bool :=
  (classesOfStmts stmts).any (fun c => c.2.1.any (fun b => b = "Scene"))

/-- Whether some `Scene`-derived class defines a `construct` method.  The
source never resets its `has_construct_method` flag, so one such class
anywhere suffices. -/
def hasConstructB (stmts : List PyStmt) : Bool :=
  (classesOfStmts stmts).any (fun c =>
    c.2.1.any (fun b => b = "Scene") && c.2.2.any (fun m => m = "construct"))

/-- The `scene_name` variable after the walk: the last `Scene` class seen. -/
def sceneNameOf (stmts : List PyStmt) : Option String :=
  (classesOfStmts stmts).foldl
    (fun acc c => if c.2.1.any (fun b => b = "Scene") then some c.1 else acc) none

def missingSceneMsg : String :=
  "Missing Scene class - code must define a class that inherits from Scene"

def missingConstructMsg : String :=
  "Missing construct() method - Scene class must have a construct method"

def validateManimSpecific (s : Script) : ValidationResult :=
  match s.parse with
  | .syntaxError msg _ =>
      { is_valid := false,
        errors := ["Syntax error prevents Manim validation: " ++ msg],
        warnings := [] }
  | .ok stmts =>
      let hasScene := hasSceneClassB stmts
      let hasConstruct := hasConstructB stmts
      let errs := (if hasScene then [] else [missingSceneMsg]) ++
                  (if hasConstruct then [] else [missingConstructMsg])
      if hasScene = false || hasConstruct = false then
        { is_valid := false, errors := errs, warnings := [],
          scene_name := sceneNameOf stmts }
      else
        let lower := lowerStr s.raw
        let ws :=
          if strContains lower ("manim") = false &&
             strContains lower ("scene") = false then
            ["Code may not be Manim-specific - missing Manim imports or Scene class"]
          else []
        { is_valid := true, errors := [], warnings := ws,
          scene_name := sceneNameOf stmts }

/-! ## `PythonCodeValidator.validate_execution_safety` -/

def dangerousPatterns : List String :=
  ["exec(", "eval(", "os.system(", "subprocess.call(", "subprocess.run(",
   "__import__(", "open(", "file("]

def validateExecutionSafety (code : String) : ValidationResult :=
  let codeLower := lowerStr code
  let ws := (dangerousPatterns.filter (fun p => strContains codeLower p)).map
      (fun p => "Potentially unsafe operation detected: " ++ p)
  let ws2 :=
    if strContains code ("while True:") || strContains code ("while 1:") then
      ws ++ ["Infinite loop detected - may cause execution to hang"]
    else ws
  { is_valid := true, errors := [], warnings := ws2 }

/-! ## `PythonCodeValidator.validate_imports`

Import success depends on the ambient interpreter; it is passed in as an
oracle `env`. -/

inductive ImportCheck where
  | plainModule (name : String)
  | fromModule (mod : Option String)

mutual

def importChecksOfStmt : PyStmt → List ImportCheck
  | .importModules mods => mods.map ImportCheck.plainModule
  | .importFromMod m _ => [ImportCheck.fromModule m]
  | .classDef _ _ body => importChecksOfStmts body
  | .funcDef _ _ body => importChecksOfStmts body
  | .whileStmt _ body => importChecksOfStmts body
  | _ => []

def importChecksOfStmts : List PyStmt → List ImportCheck
  | [] => []
  | st :: rest => importChecksOfStmt st ++ importChecksOfStmts rest

end

def importCheckResult (env : String → ImportOutcome) :
    ImportCheck → (List String × List String)
  | .plainModule n =>
      match env n with
      | .ok => ([], [])
      | .importError => (["Import error: Cannot import " ++ sq ++ n ++ sq], [])
      | .otherException m =>
          ([], ["Warning importing " ++ sq ++ n ++ sq ++ ": " ++ m])
  | .fromModule none => ([], [])
  | .fromModule (some n) =>
      match env n with
      | .ok => ([], [])
      | .importError =>
          (["Import error: Cannot import from " ++ sq ++ n ++ sq], [])
      | .otherException m =>
          ([], ["Warning importing from " ++ sq ++ n ++ sq ++ ": " ++ m])

def validateImports (env : String → ImportOutcome) (s : Script) :
    ValidationResult :=
  match s.parse with
  | .syntaxError msg _ =>
      { is_valid := false,
        errors := ["Syntax error prevents import validation: " ++ msg],
        warnings := [] }
  | .ok stmts =>
      let pairs := (importChecksOfStmts stmts).map (importCheckResult env)
      let errs := pairs.foldl (fun a p => a ++ p.1) []
      let ws := pairs.foldl (fun a p => a ++ p.2) []
      { is_valid := errs.isEmpty, errors := errs, warnings := ws }

/-! ## `PythonCodeValidator.validate_undefined_variables`

The `NameVisitor` is a stateful depth-first traversal: it accumulates the
names defined so far and the loaded names that were not yet defined at the
moment they were visited.  Per the source, `visit_Assign`, `visit_ClassDef`
and `visit_FunctionDef` record their bindings before descending into their
children. -/

structure NVState where
  defined : List String
  undefinedNames : List String

/-- `visit_Name` on a load-context name. -/
def nvLoadName (st : NVState) (id : String) : NVState :=
  if st.defined.any (fun y => y = id) then st
  else { st with undefinedNames := setAdd st.undefinedNames id }

mutual

def nvExpr (st : NVState) : PyExpr → NVState
  | .name id => nvLoadName st id
  | .strLit _ => st
  | .numLit _ => st
  | .boolLit _ => st
  | .attr v _ => nvExpr st v
  | .call f args kwargValues => nvExprs (nvExprs (nvExpr st f) args) kwargValues
  | .binop _ l r => nvExpr (nvExpr st l) r

def nvExprs (st : NVState) : List PyExpr → NVState
  | [] => st
  | e :: rest => nvExprs (nvExpr st e) rest

end

mutual

def nvStmt (st : NVState) : PyStmt → NVState
  | .classDef n bases body =>
      let st1 := { st with defined := setAdd st.defined n }
      let st2 := bases.foldl nvLoadName st1
      nvStmts st2 body
  | .funcDef n args body =>
      let st1 := { st with defined := args.foldl setAdd (setAdd st.defined n) }
      nvStmts st1 body
  | .assign targets value =>
      let st1 := { st with defined := targets.foldl setAdd st.defined }
      nvExpr st1 value
  | .importModules mods =>
      { st with defined := (mods.map firstDotComponent).foldl setAdd st.defined }
  | .importFromMod m names =>
      let base := match m with
        | some n => setAdd st.defined (firstDotComponent n)
        | none => st.defined
      { st with defined := names.foldl setAdd base }
  | .exprStmt e => nvExpr st e
  | .whileStmt test body => nvStmts (nvExpr st test) body
  | .raiseStmt e => nvExpr st e
  | .passStmt => st

def nvStmts (st : NVState) : List PyStmt → NVState
  | [] => st
  | s :: rest => nvStmts (nvStmt st s) rest

end

/-- The `manim_names` allow-list of `validate_undefined_variables`. -/
def manimNames : List String :=
  ["Scene", "Text", "MathTex", "Circle", "Square", "Rectangle", "Line",
   "Arrow", "Dot", "Write", "Create", "Transform", "FadeIn", "FadeOut",
   "ReplacementTransform", "MoveToTarget", "GrowFromCenter",
   "ShrinkToCenter", "Rotate", "Scale", "Shift", "BLUE", "RED", "GREEN",
   "YELLOW", "WHITE", "BLACK", "ORANGE", "PURPLE", "PINK", "GRAY", "BROWN",
   "self", "np", "LayoutManager", "AnimationPresets", "validate_scene",
   "wraps"]

/-- The `builtins` allow-list of `validate_undefined_variables`. -/
def builtinNames : List String :=
  ["print", "len", "range", "list", "dict", "set", "tuple", "str", "int",
   "float", "bool", "True", "False", "None", "abs", "min", "max", "sum",
   "enumerate", "zip", "map", "filter", "sorted", "reversed"]

/-- `defined_names`: the union of the two allow-lists. -/
def definedNamesList : List String := manimNames ++ builtinNames

/-- Lower-case names the source treats as a lenient warning instead of an
undefined-variable error. -/
def lenientNames : List String :=
  ["mobject", "animation", "color", "position", "duration", "rate_func"]

/-- The per-name classification loop of `validate_undefined_variables`,
producing (errors, warnings, suggestions) appended in iteration order. -/
def classifyUndefined (names : List String) :
    List String × List String × List String :=
  names.foldl
    (fun acc name =>
      if definedNamesList.any (fun y => y = name) then acc
      else if name = "self" || name = "cls" ||
              (("_").data.isPrefixOf name.data) then acc
      else if lenientNames.any (fun y => y = lowerStr name) then
        (acc.1,
         acc.2.1 ++ ["Common Manim pattern: " ++ sq ++ name ++ sq ++
                     " - consider using specific names"],
         acc.2.2)
      else
        (acc.1 ++ ["Undefined variable: " ++ sq ++ name ++ sq],
         acc.2.1,
         acc.2.2 ++ ["Define " ++ sq ++ name ++ sq ++
                     " or import it if it" ++ sq ++ "s a module/class"]))
    ([], [], [])

def validateUndefinedVariables (s : Script) : ValidationResult :=
  match s.parse with
  | .syntaxError msg _ =>
      { is_valid := false,
        errors := ["Syntax error prevents undefined variable detection: " ++ msg],
        warnings := [], suggestions := [],
        error_type := some ("syntax_error") }
  | .ok stmts =>
      let visited := nvStmts ⟨[], []⟩ stmts
      let r := classifyUndefined visited.undefinedNames
      { is_valid := r.1.isEmpty,
        errors := r.1, warnings := r.2.1, suggestions := r.2.2,
        error_type := if r.1.isEmpty then none else some ("undefined_variables") }

/-! ## `PythonCodeValidator.validate_type_errors` -/

def criticalTextFns : List String := ["Text", "MathTex"]

def criticalAnimFns : List String := ["Write", "Create", "FadeIn", "FadeOut"]

/-- The per-call check of `TypeVisitor.visit_Call` for a call whose callee
is a plain name `f` with positional arguments `args`.  The keyword
arguments of the call are not consulted by the source. -/
def tvCallFlag (f : String) (args : List PyExpr)
    (kwargValues : List PyExpr) : Option String :=
  let _ := kwargValues
  if criticalTextFns.any (fun x => x = f) then
    if args.isEmpty then
      some (sq ++ f ++ sq ++ " requires at least one argument")
    else none
  else if criticalAnimFns.any (fun x => x = f) then
    if args.isEmpty then
      some (sq ++ f ++ sq ++ " requires a mobject argument")
    else none
  else none

/-- The warning of `TypeVisitor.visit_BinOp`. -/
def tvBinOpWarning (op : BinOpKind) (l r : PyExpr) : List String :=
  if op = .add || op = .sub || op = .mult || op = .div then
    match l, r with
    | .strLit _, .numLit _ =>
        ["Mixing string and number in arithmetic operation"]
    | .numLit _, .strLit _ =>
        ["Mixing number and string in arithmetic operation"]
    | _, _ => []
  else []

mutual

def tvExpr : PyExpr → List String × List String
  | .name _ => ([], [])
  | .strLit _ => ([], [])
  | .numLit _ => ([], [])
  | .boolLit _ => ([], [])
  | .attr v _ => tvExpr v
  | .call f args kwargValues =>
      let own : List String :=
        match f with
        | .name fid => (tvCallFlag fid args kwargValues).toList
        | _ => []
      let pf := tvExpr f
      let pa := tvExprs args
      let pk := tvExprs kwargValues
      (own ++ pf.1 ++ pa.1 ++ pk.1, pf.2 ++ pa.2 ++ pk.2)
  | .binop op l r =>
      let pl := tvExpr l
      let pr := tvExpr r
      (pl.1 ++ pr.1, tvBinOpWarning op l r ++ pl.2 ++ pr.2)

def tvExprs : List PyExpr → List String × List String
  | [] => ([], [])
  | e :: rest =>
      let p := tvExpr e
      let q := tvExprs rest
      (p.1 ++ q.1, p.2 ++ q.2)

end

mutual

def tvStmt : PyStmt → List String × List String
  | .classDef _ _ body => tvStmts body
  | .funcDef _ _ body => tvStmts body
  | .assign _ value => tvExpr value
  | .exprStmt e => tvExpr e
  | .whileStmt test body =>
      let p := tvExpr test
      let q := tvStmts body
      (p.1 ++ q.1, p.2 ++ q.2)
  | .raiseStmt e => tvExpr e
  | _ => ([], [])

def tvStmts : List PyStmt → List String × List String
  | [] => ([], [])
  | s :: rest =>
      let p := tvStmt s
      let q := tvStmts rest
      (p.1 ++ q.1, p.2 ++ q.2)

end

def typeErrorSuggestions : List String :=
  ["Check function argument types and order",
   "Ensure all variables are properly initialized before use",
   "Verify that objects have the expected methods and attributes"]

def validateTypeErrors (s : Script) : ValidationResult :=
  match s.parse with
  | .syntaxError msg _ =>
      { is_valid := false,
        errors := ["Syntax error prevents type error detection: " ++ msg],
        warnings := [], suggestions := [],
        error_type := some ("syntax_error") }
  | .ok stmts =>
      let p := tvStmts stmts
      { is_valid := p.1.isEmpty,
        errors := p.1, warnings := p.2,
        suggestions := if p.1.isEmpty then [] else typeErrorSuggestions,
        error_type := if p.1.isEmpty then none else some ("type_error") }

/-! ## `PythonCodeValidator.validate_runtime_errors`

The body is compiled and then executed with `exec` in the main thread.  The
source arms a `threading.Timer(3.0, timeout_handler)` where the handler
raises `TimeoutError`; that exception is raised inside the timer thread and
never reaches the `exec` running in the main thread, so a diverging script
body makes the whole validator diverge: the model returns `none` (no
`ValidationResult` is ever produced).  The `except TimeoutError` branch is
reachable only if the executed script itself raises `TimeoutError`. -/

def criticalRuntimeExcs : List String :=
  ["ZeroDivisionError", "AttributeError", "NameError"]

def runtimeSuggestionFor (ty : String) : List String :=
  if ty = "AttributeError" then
    ["Check that objects have the required methods/attributes"]
  else if ty = "NameError" then
    ["Check that all variables are defined before use"]
  else if ty = "ZeroDivisionError" then
    ["Check for division by zero"]
  else []

def validateRuntimeErrors (s : Script) : Option ValidationResult :=
  match s.parse with
  | .syntaxError msg _ => some
      { is_valid := false,
        errors := ["Syntax error prevents runtime validation: " ++ msg],
        warnings := [], suggestions := [],
        error_type := some ("syntax_error") }
  | .ok _ =>
      match s.execOutcome with
      | .diverges => none
      | .normal => some
          { is_valid := true, errors := [], warnings := [],
            suggestions := [], error_type := none }
      | .raises ty msg =>
          if ty = "TimeoutError" then some
            { is_valid := false,
              errors := ["Code execution timed out - possible infinite loop"],
              warnings := [],
              suggestions := ["Check for infinite loops or very long operations"],
              error_type := some ("runtime_error") }
          else if criticalRuntimeExcs.any (fun x => x = ty) then some
            { is_valid := false,
              errors := ["Runtime error: " ++ ty ++ ": " ++ msg],
              warnings := [],
              suggestions := runtimeSuggestionFor ty,
              error_type := some ("runtime_error") }
          else some
            { is_valid := true, errors := [],
              warnings := ["Potential runtime issue: " ++ ty ++ ": " ++ msg],
              suggestions := [], error_type := none }

/-! ## `validate_generated_manim_code` (the `use_subprocess=False` branch)

A syntax failure returns the syntax result unchanged (its `error_type` is
`None`: `validate_syntax` never sets one, so the later
`primary_error_type = "syntax_error"` arm is unreachable).  Otherwise all
seven partial results are concatenated and the dominant `error_type` is
chosen by the if/elif chain of the source: undefined variables, then type,
then runtime, then import, then manim, then safety errors. -/

def primaryErrorType (synE undE typE runE impE manE safE : List String) :
    Option String :=
  if synE.isEmpty = false then some ("syntax_error")
  else if undE.isEmpty = false then some ("undefined_variables")
  else if typE.isEmpty = false then some ("type_error")
  else if runE.isEmpty = false then some ("runtime_error")
  else if impE.isEmpty = false then some ("import_error")
  else if manE.isEmpty = false then some ("manim_error")
  else if safE.isEmpty = false then some ("safety_error")
  else none

def validateGenerated (env : String → ImportOutcome) (s : Script) :
    Option ValidationResult :=
  let synR := validateSyntax s
  if synR.is_valid = false then some synR
  else
    let impR := validateImports env s
    let manR := validateManimSpecific s
    let safR := validateExecutionSafety s.raw
    let undR := validateUndefinedVariables s
    let typR := validateTypeErrors s
    match validateRuntimeErrors s with
    | none => none
    | some runR =>
        let allErrors := synR.errors ++ impR.errors ++ manR.errors ++
          safR.errors ++ undR.errors ++ typR.errors ++ runR.errors
        let allWarnings := synR.warnings ++ impR.warnings ++ manR.warnings ++
          safR.warnings ++ undR.warnings ++ typR.warnings ++ runR.warnings
        let allSuggestions := synR.suggestions ++ impR.suggestions ++
          manR.suggestions ++ safR.suggestions ++ undR.suggestions ++
          typR.suggestions ++ runR.suggestions
        some
          { is_valid := allErrors.isEmpty,
            errors := allErrors,
            warnings := allWarnings,
            suggestions := allSuggestions,
            error_type := primaryErrorType synR.errors undR.errors typR.errors
              runR.errors impR.errors manR.errors safR.errors }

/-! ## `validate_manim_code_with_subprocess`

The subprocess run itself is an oracle: it either completes with a return
code and captured stdout/stderr text, expires the 30-second timeout
(`subprocess.run` kills the child and raises `TimeoutExpired`, so control
always returns to the caller), or raises some other exception caught by
the generic handler. -/

inductive SubprocessOutcome where
  | completed (returncode : Int) (stdoutText : String) (stderrText : String)
  | timedOut
  | raisedException (msg : String)

/-- Buckets of the error-line classification loop. -/
structure LineBuckets where
  syntaxErrs : List String
  importErrs : List String
  runtimeErrs : List String
  manimErrs : List String

def classifyErrorLine (b : LineBuckets) (line : String) : LineBuckets :=
  let l := line.trim
  if l = "" then b
  else if strContains l ("SyntaxError") then
    { b with syntaxErrs := b.syntaxErrs ++ [l] }
  else if strContains l ("ImportError") ||
          strContains l ("ModuleNotFoundError") then
    { b with importErrs := b.importErrs ++ [l] }
  else if strContains l ("NameError") then
    { b with runtimeErrs := b.runtimeErrs ++ ["Undefined variable: " ++ l] }
  else if strContains l ("AttributeError") then
    { b with runtimeErrs := b.runtimeErrs ++ ["Attribute error: " ++ l] }
  else if strContains l ("TypeError") then
    { b with runtimeErrs := b.runtimeErrs ++ ["Type error: " ++ l] }
  else if strContains l ("ValueError") then
    { b with runtimeErrs := b.runtimeErrs ++ ["Value error: " ++ l] }
  else if strContains l ("Error") && (b.manimErrs.any (fun y => y = l)) = false then
    { b with manimErrs := b.manimErrs ++ [l] }
  else b

/-- The last `n` elements of a list, modelling Python `xs[-n:]`. -/
def lastN (n : Nat) (xs : List String) : List String :=
  xs.drop (xs.length - n)

def validateManimCodeWithSubprocess (outcome : SubprocessOutcome)
    (sceneName : String) : ValidationResult :=
  match outcome with
  | .completed rc stdoutText stderrText =>
      if rc = 0 then
        { is_valid := true, errors := [], warnings := [],
          scene_name := some sceneName }
      else
        let errorLines :=
          (if stderrText = "" then [] else stderrText.splitOn ("\n")) ++
          (if stdoutText = "" then [] else stdoutText.splitOn ("\n"))
        let b := errorLines.foldl classifyErrorLine ⟨[], [], [], []⟩
        let allErrors := b.syntaxErrs ++ b.importErrs ++ b.runtimeErrs ++
          b.manimErrs
        let errs :=
          if allErrors.isEmpty then
            ["Manim execution failed with return code " ++ toString rc]
          else allErrors
        let et :=
          if b.syntaxErrs.isEmpty = false then ("syntax_error")
          else if b.importErrs.isEmpty = false then ("import_error")
          else if b.runtimeErrs.isEmpty = false then ("runtime_error")
          else ("manim_error")
        { is_valid := false, errors := errs, warnings := [],
          scene_name := some sceneName,
          error_type := some et,
          subprocess_stderr := some stderrText,
          manim_error_output :=
            some (String.intercalate ("\n") (lastN 20 errorLines)) }
  | .timedOut =>
      { is_valid := false,
        errors := ["Manim code execution timed out - possible infinite loop or very slow operations"],
        warnings := [],
        scene_name := some sceneName,
        error_type := some ("timeout_error") }
  | .raisedException msg =>
      { is_valid := false,
        errors := ["Validation process failed: " ++ msg],
        warnings := [],
        scene_name := some sceneName,
        error_type := some ("validation_error") }

/-! ## `validate_and_regenerate_manim_code`

The loop `for attempt in range(max_attempts)` validates the current code,
returns immediately on a valid result, regenerates on failure except on
the final attempt, and after the loop returns the last code together with
its result.  The validator and the regenerator (the Anthropic call, which
itself catches its own failures and returns the input code) are passed as
functions.  With `max_attempts = 0` the loop body never runs and the final
`return current_code, validation_result` raises `UnboundLocalError`; the
model returns `none` for that case.  The model additionally reports how
many validation passes and how many generator calls were performed. -/

structure RepairRun where
  code : String
  result : ValidationResult
  validations : Nat
  regens : Nat

def repairLoopGo (validate : String → ValidationResult)
    (regen : String → ValidationResult → String) :
    Nat → String → Option RepairRun
  | 0, _ => none
  | 1, c =>
      let r := validate c
      some ⟨c, r, 1, 0⟩
  | n + 2, c =>
      let r := validate c
      if r.is_valid then some ⟨c, r, 1, 0⟩
      else
        match repairLoopGo validate regen (n + 1) (regen c r) with
        | none => none
        | some out => some ⟨out.code, out.result, out.validations + 1, out.regens + 1⟩

def validateAndRegenerateManimCode (validate : String → ValidationResult)
    (regen : String → ValidationResult → String)
    (maxAttempts : Nat) (code : String) : Option (String × ValidationResult) :=
  (repairLoopGo validate regen maxAttempts code).map (fun o => (o.code, o.result))

/-! ## `SyncValidator._extract_animation_timing`

The two regular expressions of the source are embedded over character
lists:

- `self\.wait\(([^)]+)\)` matches the literal `self.wait(`, then a maximal
  nonempty run of characters other than the closing parenthesis, then that
  closing parenthesis; the run is the capture.

- `self\.play\([^)]+(?:,\s*run_time\s*=\s*([^,)]+))?` matches the literal
  `self.play(` followed by a maximal nonempty run of characters other than
  the closing parenthesis.  The optional group can then only be tried at a
  closing parenthesis or at the end of the text, where its leading comma
  can never match, and since skipping an optional trailing group already
  completes the overall match, the regex engine never backtracks into the
  greedy run: group 1 of this pattern is `None` for every input, and every
  `self.play` match contributes the default duration `1.0`.

Scanning is non-overlapping and resumes after each match end, expressed
with an explicit fuel equal to the text length (every step consumes at
least one character, so the fuel never runs out). -/

def waitOpen : List Char := ("self.wait(").data

def playOpen : List Char := ("self.play(").data

/-- Split at the first closing parenthesis: the maximal run of
non-`)` characters, and the rest (which starts with `)` if nonempty). -/
def takeNonParen : List Char → (List Char × List Char)
  | [] => ([], [])
  | c :: t =>
      if c = ')' then ([], c :: t)
      else
        let p := takeNonParen t
        (c :: p.1, p.2)

/-- Try the wait pattern at the head of `s`; on success return the capture
and the rest of the text after the match. -/
def waitMatchAt (s : List Char) : Option (List Char × List Char) :=
  if waitOpen.isPrefixOf s then
    let p := takeNonParen (s.drop 10)
    match p.2 with
    | ')' :: tl => if p.1.isEmpty then none else some (p.1, tl)
    | _ => none
  else none

def scanWaitsF : Nat → List Char → List (List Char)
  | 0, _ => []
  | _ + 1, [] => []
  | fuel + 1, c :: t =>
      match waitMatchAt (c :: t) with
      | some (cap, rest) => cap :: scanWaitsF fuel rest
      | none => scanWaitsF fuel t

/-- All captures of `re.finditer` for the wait pattern. -/
def scanWaits (s : List Char) : List (List Char) := scanWaitsF s.length s

/-- Try the play pattern at the head of `s`; on success return the rest of
the text after the match end (group 1 is always `None`, see above). -/
def playMatchAt (s : List Char) : Option (List Char) :=
  if playOpen.isPrefixOf s then
    let p := takeNonParen (s.drop 10)
    if p.1.isEmpty then none else some p.2
  else none

def scanPlaysF : Nat → List Char → Nat
  | 0, _ => 0
  | _ + 1, [] => 0
  | fuel + 1, c :: t =>
      match playMatchAt (c :: t) with
      | some rest => scanPlaysF fuel rest + 1
      | none => scanPlaysF fuel t

/-- Number of `re.finditer` matches of the play pattern. -/
def scanPlaysCount (s : List Char) : Nat := scanPlaysF s.length s

/-- The decimal-literal front end of `float(eval(expr))`: optional
whitespace and sign, digits, and an optional fractional part.  `eval` on a
generated duration expression is modelled for numeric literals; any other
expression is reported as a parse failure, which the callers of this
function turn into the same fallback or exception behaviour the source
exhibits when `eval` raises. -/
def parseNumParts (s : List Char) : Option (Bool × List Char × List Char) :=
  let s1 := ((s.dropWhile (fun c => c.isWhitespace)).reverse.dropWhile
      (fun c => c.isWhitespace)).reverse
  let p := match s1 with
    | '-' :: t => (true, t)
    | _ => (false, s1)
  let ip := p.2.takeWhile (fun c => c.isDigit)
  let rest := p.2.dropWhile (fun c => c.isDigit)
  match rest with
  | [] => if ip.isEmpty then none else some (p.1, ip, [])
  | '.' :: frac =>
      if frac.all (fun c => c.isDigit) && decide (0 < ip.length + frac.length) then
        some (p.1, ip, frac)
      else none
  | _ => none

def digitsToNat (s : List Char) : Nat :=
  s.foldl (fun a c => a * 10 + (c.toNat - 48)) 0

def partsToRat (p : Bool × List Char × List Char) : ℚ :=
  (if p.1 then (-1 : ℚ) else 1) *
    ((digitsToNat p.2.1 : ℚ) + (digitsToNat p.2.2 : ℚ) / (10 ^ p.2.2.length))

def parseNumLit (s : List Char) : Option ℚ := (parseNumParts s).map partsToRat

/-- One event of the timing breakdown dictionary. -/
structure TimingEvent where
  kind : String
  start_time : ℚ
  duration : ℚ
  line : Nat
  deriving DecidableEq

/-- The dictionary returned by `_extract_animation_timing`. -/
structure AnimationTiming where
  total_duration : ℚ
  wait_times : List ℚ
  play_times : List ℚ
  timing_events : List TimingEvent
  event_count : Nat
  extraction_error : Option String := none
  deriving DecidableEq

/-- Classification of one line by the per-line loop of the source. -/
inductive LineKind where
  | waitCap (cap : List Char)
  | play
  | skip
  deriving DecidableEq

/-- First wait-pattern match in a line (`re.search`). -/
def lineWaitFirstF : Nat → List Char → Option (List Char)
  | 0, _ => none
  | _ + 1, [] => none
  | fuel + 1, c :: t =>
      match waitMatchAt (c :: t) with
      | some (cap, _) => some cap
      | none => lineWaitFirstF fuel t

def lineWaitFirst (line : List Char) : Option (List Char) :=
  lineWaitFirstF line.length line

/-- Classify a line: a line containing `self.wait(` consults the first
wait match (no match means no event); otherwise a line containing
`self.play(` always contributes an animation event of the default duration
(group 1 of the play pattern is always `None`). -/
def lineKind (line : List Char) : LineKind :=
  if listContains line waitOpen then
    match lineWaitFirst line with
    | some cap => .waitCap cap
    | none => .skip
  else if listContains line playOpen then .play
  else .skip

/-- Assemble timing events from classified lines, accumulating the start
time.  A wait capture whose `eval` is not numeric raises inside the loop
(the per-line wait branch has no try/except), escaping to the outer
handler of `_extract_animation_timing`. -/
def assembleEvents : List LineKind → Nat → ℚ →
    Except String (List TimingEvent)
  | [], _, _ => .ok []
  | .waitCap cap :: rest, i, t =>
      match parseNumLit cap with
      | some d =>
          (assembleEvents rest (i + 1) (t + d)).map
            (fun evs => ⟨"wait", t, d, i⟩ :: evs)
      | none => .error ("eval failed on wait duration expression")
  | .play :: rest, i, t =>
      (assembleEvents rest (i + 1) (t + 1)).map
        (fun evs => ⟨"animation", t, 1, i⟩ :: evs)
  | .skip :: rest, i, t => assembleEvents rest (i + 1) t

/-- Split a character list at newlines, modelling `str.split("\n")`. -/
def splitLinesF : Nat → List Char → List (List Char)
  | 0, s => [s]
  | fuel + 1, s =>
      let p := s.span (fun c => c ≠ '\n')
      match p.2 with
      | [] => [p.1]
      | _ :: tl => p.1 :: splitLinesF fuel tl

def splitLines (s : List Char) : List (List Char) := splitLinesF s.length s

def extractAnimationTiming (code : String) : AnimationTiming :=
  let cs := code.data
  let wait_times := (scanWaits cs).map (fun cap => (parseNumLit cap).getD 1)
  let play_times := List.replicate (scanPlaysCount cs) (1 : ℚ)
  let total := wait_times.sum + play_times.sum
  match assembleEvents ((splitLines cs).map lineKind) 1 0 with
  | .ok evs =>
      { total_duration := total, wait_times := wait_times,
        play_times := play_times, timing_events := evs,
        event_count := evs.length }
  | .error e =>
      { total_duration := 0, wait_times := [], play_times := [],
        timing_events := [], event_count := 0, extraction_error := some e }

/-! ## `SyncValidator.validate_sync` and `_validate_sync_points` -/

/-- Configuration read from the environment in `SyncValidator.__init__`. -/
structure SyncCfg where
  confidence_threshold : ℚ
  timing_tolerance_ms : ℚ
  max_correction_attempts : Nat

/-- A sync point dictionary (`time` and `name` keys). -/
structure SyncPoint where
  time : ℚ
  name : String
  deriving DecidableEq

/-- One entry of the `sync_issues` list; `none` for `closest_event_time`
and `distance` model Python `None` and `float("inf")` when there are no
timing events at all. -/
structure SyncIssue where
  sync_point : String
  expected_time : ℚ
  closest_event_time : Option ℚ
  distance : Option ℚ
  deriving DecidableEq

/-- The closest-event scan of `_validate_sync_points`: minimal distance
with strict improvement, so the first event attaining the minimum wins. -/
def closestScan (events : List TimingEvent) (expected : ℚ) :
    Option (TimingEvent × ℚ) :=
  events.foldl
    (fun acc e =>
      let d := |e.start_time - expected|
      match acc with
      | none => some (e, d)
      | some pr => if d < pr.2 then some (e, d) else acc)
    none

/-- One step of the sync-point loop: count a match within tolerance,
otherwise record an issue. -/
def syncStep (tol : ℚ) (events : List TimingEvent)
    (acc : Nat × List SyncIssue) (p : SyncPoint) : Nat × List SyncIssue :=
  match closestScan events p.time with
  | some pr =>
      if pr.2 ≤ tol then (acc.1 + 1, acc.2)
      else (acc.1, acc.2 ++ [⟨p.name, p.time, some pr.1.start_time, some pr.2⟩])
  | none => (acc.1, acc.2 ++ [⟨p.name, p.time, none, none⟩])

/-- Count of matched points and the issue list, accumulated in order. -/
def syncPointsScan (tol : ℚ) (events : List TimingEvent)
    (points : List SyncPoint) : Nat × List SyncIssue :=
  points.foldl (syncStep tol events) (0, [])

/-- `_validate_sync_points`: score 1.0 with no issues when the point list
is empty, otherwise the matched fraction. -/
def validateSyncPoints (tol : ℚ) (events : List TimingEvent)
    (points : List SyncPoint) : ℚ × List SyncIssue :=
  if points.isEmpty then (1, [])
  else
    let p := syncPointsScan tol events points
    ((p.1 : ℚ) / (points.length : ℚ), p.2)

/-- The three correction dictionary shapes produced by
`_generate_corrections` and consumed by `apply_corrections`, by their used
numeric field. -/
inductive Correction where
  | durationAdjustment (adjustment_factor : ℚ)
  | syncPointAdjustment (adjustment : ℚ)
  | globalSpeedAdjustment (recommended_factor : ℚ)

/-- `_generate_corrections`. -/
def generateCorrections (timing : AnimationTiming) (audioDuration : ℚ)
    (points : List SyncPoint) (issues : List SyncIssue) : List Correction :=
  let animationDuration := timing.total_duration
  let durC : List Correction :=
    if |animationDuration - audioDuration| > 1/2 then
      [.durationAdjustment
        (if animationDuration > 0 then audioDuration / animationDuration else 1)]
    else []
  let pointCs : List Correction :=
    issues.map (fun i =>
      .syncPointAdjustment (i.expected_time - (i.closest_event_time.getD 0)))
  let speedC : List Correction :=
    if (issues.length : ℚ) > (points.length : ℚ) * (1/2) then
      [.globalSpeedAdjustment
        (if animationDuration > 0 then audioDuration / animationDuration else 1)]
    else []
  durC ++ pointCs ++ speedC

/-- The result dictionary of `validate_sync`. -/
structure SyncReport where
  confidence : ℚ
  duration_score : ℚ
  sync_score : ℚ
  timing_data : AnimationTiming
  audio_duration : ℚ
  duration_difference : ℚ
  sync_issues : List SyncIssue
  corrections : List Correction
  valid : Bool

/-- The body of `validate_sync` after timing extraction; the timing model
is a parameter because the source consumes it only through
`total_duration` and `timing_events`. -/
def validateSyncCore (cfg : SyncCfg) (timing : AnimationTiming)
    (audioDuration : ℚ) (points : List SyncPoint) : SyncReport :=
  let durationDiff := |timing.total_duration - audioDuration|
  let durationScore :=
    if audioDuration > 0 then max 0 (1 - durationDiff / audioDuration) else 0
  let tol := cfg.timing_tolerance_ms / 1000
  let sp := validateSyncPoints tol timing.timing_events points
  let confidence := durationScore * (4/10) + sp.1 * (6/10)
  let corrections :=
    if confidence < cfg.confidence_threshold then
      generateCorrections timing audioDuration points sp.2
    else []
  { confidence := confidence,
    duration_score := durationScore,
    sync_score := sp.1,
    timing_data := timing,
    audio_duration := audioDuration,
    duration_difference := durationDiff,
    sync_issues := sp.2,
    corrections := corrections,
    valid := decide (confidence ≥ cfg.confidence_threshold) }

/-- `validate_sync` proper: extract the timing from the code, then score. -/
def validateSync (cfg : SyncCfg) (manimCode : String) (audioDuration : ℚ)
    (points : List SyncPoint) : SyncReport :=
  validateSyncCore cfg (extractAnimationTiming manimCode) audioDuration points

/-! ## `SyncValidator.apply_corrections` and its helpers

`_apply_duration_correction` rewrites every wait match (with a per-match
try/except that keeps the original text when `eval` fails) and then every
`run_time` assignment (whose substitution lambda has no try/except, so a
non-numeric `run_time` expression raises out of the rewrite).
`_apply_sync_point_correction` adjusts the first wait on some line and
never raises (its `eval` failures `continue`).  `_apply_speed_correction`
divides by the factor first, so a zero factor raises `ZeroDivisionError`.
`apply_corrections` folds the corrections inside one try/except and
returns the original code when anything raises. -/

/-- Python `f"{x:.2f}"` on the exact rational model: two decimal places.
(The source formats a binary float with round-half-even; the model rounds
the exact value.  No theorem below depends on the tie behaviour.) -/
def fmt2 (x : ℚ) : List Char :=
  let n : ℤ := ⌊x * 100 + 1/2⌋
  let m := n.natAbs
  (if n < 0 then ['-'] else []) ++ (toString (m / 100)).data ++
    ['.'] ++ (if m % 100 < 10 then ['0'] else []) ++ (toString (m % 100)).data

/-- The wait-pattern `re.sub` of `_apply_duration_correction`: scale each
parsed wait duration, keep the original match text when parsing fails. -/
def rewriteWaitsF : Nat → ℚ → List Char → List Char
  | 0, _, s => s
  | _ + 1, _, [] => []
  | fuel + 1, factor, c :: t =>
      match waitMatchAt (c :: t) with
      | some (cap, rest) =>
          let repl :=
            match parseNumLit cap with
            | some v => waitOpen ++ fmt2 (v * factor) ++ [')']
            | none => waitOpen ++ cap ++ [')']
          repl ++ rewriteWaitsF fuel factor rest
      | none => c :: rewriteWaitsF fuel factor t

def rewriteWaits (factor : ℚ) (s : List Char) : List Char :=
  rewriteWaitsF s.length factor s

/-- Split at the first comma or closing parenthesis. -/
def takeNonCommaParen : List Char → (List Char × List Char)
  | [] => ([], [])
  | c :: t =>
      if c = ',' || c = ')' then ([], c :: t)
      else
        let p := takeNonCommaParen t
        (c :: p.1, p.2)

/-- Try the pattern `run_time\s*=\s*([^,)]+)` at the head of `s`. -/
def runTimeMatchAt (s : List Char) : Option (List Char × List Char) :=
  if ("run_time").data.isPrefixOf s then
    let r2 := (s.drop 8).dropWhile (fun c => c.isWhitespace)
    match r2 with
    | '=' :: r3 =>
        let p := takeNonCommaParen (r3.dropWhile (fun c => c.isWhitespace))
        if p.1.isEmpty then none else some (p.1, p.2)
    | _ => none
  else none

/-- The `run_time` `re.sub` of `_apply_duration_correction`; a capture on
which `eval` fails raises out of the substitution. -/
def rewriteRunTimesF : Nat → ℚ → List Char → Except String (List Char)
  | 0, _, s => .ok s
  | _ + 1, _, [] => .ok []
  | fuel + 1, factor, c :: t =>
      match runTimeMatchAt (c :: t) with
      | some (cap, rest) =>
          match parseNumLit cap with
          | some v =>
              (rewriteRunTimesF fuel factor rest).map
                (fun out => ("run_time=").data ++ fmt2 (v * factor) ++ out)
          | none => .error ("eval failed on run_time expression")
      | none => (rewriteRunTimesF fuel factor t).map (fun out => c :: out)

def rewriteRunTimes (factor : ℚ) (s : List Char) : Except String (List Char) :=
  rewriteRunTimesF s.length factor s

def applyDurationCorrection (code : List Char) (factor : ℚ) :
    Except String (List Char) :=
  rewriteRunTimes factor (rewriteWaits factor code)

/-- Replace every wait match of a line with `self.wait(<nw>)` (the
constant-replacement `re.sub` of `_apply_sync_point_correction`). -/
def rewriteWaitsConstF : Nat → List Char → List Char → List Char
  | 0, _, s => s
  | _ + 1, _, [] => []
  | fuel + 1, repl, c :: t =>
      match waitMatchAt (c :: t) with
      | some (_, rest) => repl ++ rewriteWaitsConstF fuel repl rest
      | none => c :: rewriteWaitsConstF fuel repl t

/-- The line loop of `_apply_sync_point_correction`: adjust the first line
whose first wait duration parses, clamped below at 0.1; keep scanning on a
parse failure; stop after the first adjusted line. -/
def syncAdjustLines (adjustment : ℚ) : List (List Char) → List (List Char)
  | [] => []
  | line :: rest =>
      if listContains line waitOpen && decide (adjustment ≠ 0) then
        match lineWaitFirst line with
        | some cap =>
            match parseNumLit cap with
            | some cur =>
                let nw := max (1/10) (cur + adjustment)
                let repl := waitOpen ++ fmt2 nw ++ [')']
                rewriteWaitsConstF line.length repl line :: rest
            | none => line :: syncAdjustLines adjustment rest
        | none => line :: syncAdjustLines adjustment rest
      else line :: syncAdjustLines adjustment rest

def joinLines (lines : List (List Char)) : List Char :=
  match lines with
  | [] => []
  | l :: rest => rest.foldl (fun a x => a ++ '\n' :: x) l

def applySyncPointCorrection (code : List Char) (adjustment : ℚ) : List Char :=
  joinLines (syncAdjustLines adjustment (splitLines code))

def applySpeedCorrection (code : List Char) (factor : ℚ) :
    Except String (List Char) :=
  if factor = 0 then .error ("ZeroDivisionError: float division by zero")
  else applyDurationCorrection code (1 / factor)

def applyCorrectionStep (code : List Char) : Correction →
    Except String (List Char)
  | .durationAdjustment f => applyDurationCorrection code f
  | .syncPointAdjustment adj => .ok (applySyncPointCorrection code adj)
  | .globalSpeedAdjustment f => applySpeedCorrection code f

/-- The correction loop inside the try block of `apply_corrections`. -/
def foldCorrections (code : List Char) : List Correction →
    Except String (List Char)
  | [] => .ok code
  | c :: rest =>
      match applyCorrectionStep code c with
      | .ok c2 => foldCorrections c2 rest
      | .error e => .error e

/-- `apply_corrections`: on any exception inside the loop the original
code is returned unchanged. -/
def applyCorrections (code : String) (cs : List Correction) : String :=
  match foldCorrections code.data cs with
  | .ok out => String.mk out
  | .error _ => code

/-! ## The render-server `ValidationResult`
(`src/render-server/utils/validation.py`) as a state machine over its
`add_error` / `add_warning` operations. -/

structure RSEntry where
  message : String
  fieldName : Option String
  value : Option String
  entryType : String
  deriving DecidableEq

structure RSValidationResult where
  is_valid : Bool
  errors : List RSEntry
  warnings : List RSEntry
  deriving DecidableEq

/-- The `__init__` state. -/
def rsInit : RSValidationResult := ⟨true, [], []⟩

inductive RSOp where
  | addError (message : String) (fieldName : Option String) (value : Option String)
  | addWarning (message : String) (fieldName : Option String) (value : Option String)

def rsApply (r : RSValidationResult) : RSOp → RSValidationResult
  | .addError m f v =>
      { r with is_valid := false, errors := r.errors ++ [⟨m, f, v, "error"⟩] }
  | .addWarning m f v =>
      { r with warnings := r.warnings ++ [⟨m, f, v, "warning"⟩] }

def rsRun (ops : List RSOp) : RSValidationResult := ops.foldl rsApply rsInit

/-! ## Spec-side definitions

These follow the wording of the specification (not the source) and are
compared with the source embeddings in the theorems below. -/

/-- The critical constructors/operations of the call-shape check, as one
set, following the specification wording. -/
def criticalCallNames : List String :=
  ["Text", "MathTex", "Write", "Create", "FadeIn", "FadeOut"]

/-- Spec-side matched predicate for a sync point: the closest timing event
lies within the tolerance. -/
def syncPointMatched (tol : ℚ) (events : List TimingEvent)
    (p : SyncPoint) : Bool :=
  match closestScan events p.time with
  | some pr => decide (pr.2 ≤ tol)
  | none => false

/-! ## Concrete fixtures used by counterexamples and witnesses -/

/-- An import oracle in which every module imports successfully. -/
def envAllOk : String → ImportOutcome := fun _ => ImportOutcome.ok

/-- A syntactically valid script with no Scene class at all. -/
def passOnlyScript : Script :=
  { raw := "pass", parse := .ok [.passStmt], execOutcome := .normal }

/-- A script with no Scene class and one undefined name. -/
def undefNameScript : Script :=
  { raw := "y = undefined_name",
    parse := .ok [.assign ["y"] (.name ("undefined_name"))],
    execOutcome := .normal }

/-- The combined validation result of `passOnlyScript`. -/
def passOnlyCombined : ValidationResult :=
  { is_valid := false,
    errors := [missingSceneMsg, missingConstructMsg],
    warnings := [],
    suggestions := [],
    error_type := some ("manim_error") }

/-- The undefined-variable error message for `undefined_name`. -/
def undefVarMsg : String :=
  "Undefined variable: " ++ sq ++ "undefined_name" ++ sq

/-- The accompanying suggestion for `undefined_name`. -/
def undefVarSuggestion : String :=
  "Define " ++ sq ++ "undefined_name" ++ sq ++
    " or import it if it" ++ sq ++ "s a module/class"

/-- The combined validation result of `undefNameScript`. -/
def undefNameCombined : ValidationResult :=
  { is_valid := false,
    errors := [missingSceneMsg, missingConstructMsg, undefVarMsg],
    warnings := [],
    suggestions := [undefVarSuggestion],
    error_type := some ("undefined_variables") }

/-- A script whose body is an unconditioned infinite loop: `exec` on it
never returns. -/
def divergingLoopScript : Script :=
  { raw := "while True:\n    pass",
    parse := .ok [.whileStmt (.boolLit true) [.passStmt]],
    execOutcome := .diverges }

/-- A script whose body raises `TimeoutError` itself, reaching the
`except TimeoutError` branch of `validate_runtime_errors`. -/
def timeoutRaisingScript : Script :=
  { raw := "raise TimeoutError()",
    parse := .ok [.raiseStmt (.call (.name ("TimeoutError")) [] [])],
    execOutcome := .raises ("TimeoutError") ("") }

/-- A script whose only call passes a keyword argument and no positional
argument to `Text`. -/
def kwOnlyTextScript : Script :=
  { raw := "Text(text=" ++ sq ++ "hello" ++ sq ++ ")",
    parse := .ok [.exprStmt (.call (.name ("Text")) [] [.strLit ("hello")])],
    execOutcome := .normal }

/-- A validator that rejects every script (for the repair-loop witness). -/
def alwaysFailValidate : String → ValidationResult :=
  fun _ => { is_valid := false, errors := ["stub error"], warnings := [] }

/-- A regenerator that returns the same script (for the repair-loop
witness). -/
def identityRegen : String → ValidationResult → String := fun c _ => c

/-- A sync validator configuration with the default threshold 0.95,
tolerance 100 ms and 3 correction attempts. -/
def syncCfg0 : SyncCfg :=
  { confidence_threshold := 95/100, timing_tolerance_ms := 100,
    max_correction_attempts := 3 }

/-- A timing model with total duration 4 and no events. -/
def timing0 : AnimationTiming :=
  { total_duration := 4, wait_times := [], play_times := [],
    timing_events := [], event_count := 0 }

/-- The example script of the specification: a scene construct with an
entry-point routine, one hold of literal duration 2, and one transition
with explicit `run_time=1.5`. -/
def holdAndTransitionScript : String :=
  "class MyScene(Scene):\n    def construct(self):\n        self.wait(2)\n        self.play(Write(text), run_time=1.5)\n"

/-! # Theorems -/

/-- C7: the safety scan for dangerous operation names and the
unbounded-loop scan produce only warnings: for every input script text the
result of `validate_execution_safety` has `is_valid = true`, an empty
error list, and no `error_type`, even when dangerous patterns or
condition-less loops are present. -/
theorem safety_scan_warnings_only (code : String) :
    (validateExecutionSafety code).is_valid = true ∧
    (validateExecutionSafety code).errors = [] ∧
    (validateExecutionSafety code).error_type = none :=
  ⟨rfl, rfl, rfl⟩

/-- C3: the in-process sandbox of `validate_runtime_errors` does not
return on a script with an unconditioned infinite loop — the
`threading.Timer` handler raises `TimeoutError` in the timer thread, which
never interrupts the `exec` in the main thread, so no `ValidationResult`
(in particular no `timeout_error`) is produced and the caller hangs.
Moreover, even when the `except TimeoutError` branch is reached (the
executed script raising `TimeoutError` itself), the result is labelled
`runtime_error`, not `timeout_error`. -/
theorem runtime_validator_hangs_on_divergent_script :
    validateRuntimeErrors divergingLoopScript = none ∧
    (validateRuntimeErrors timeoutRaisingScript).map
        (fun r => (r.is_valid, r.error_type, r.errors)) =
      some (false, some ("runtime_error"),
            ["Code execution timed out - possible infinite loop"]) :=
  ⟨rfl, rfl⟩

/-- C10: `apply_corrections` applied to the empty correction list returns
the script unchanged, and whenever the correction loop fails internally
(`foldCorrections` raises) the original script text is returned unchanged.
Both correction application and its helpers are total functions of the
model, mirroring the outer try/except of the source that converts every
exception into returning the original text. -/
theorem apply_corrections_total_and_atomic (code : String)
    (cs : List Correction) :
    applyCorrections code [] = code ∧
    (∀ e, foldCorrections code.data cs = Except.error e →
      applyCorrections code cs = code) := by
  obtain ⟨d⟩ := code
  constructor
  · rfl
  · intro e he
    simp only [applyCorrections]
    rw [he]

/-- C10 witness: a global speed adjustment with factor 0 raises
`ZeroDivisionError` inside the loop, and `apply_corrections` returns the
original script unchanged. -/
theorem apply_corrections_total_and_atomic_witness :
    foldCorrections ("x").data [Correction.globalSpeedAdjustment 0] =
      Except.error ("ZeroDivisionError: float division by zero") ∧
    applyCorrections ("x") [Correction.globalSpeedAdjustment 0] = "x" :=
  ⟨rfl, (apply_corrections_total_and_atomic ("x")
      [Correction.globalSpeedAdjustment 0]).2
      ("ZeroDivisionError: float division by zero") rfl⟩

/-- C9 counterexample: the call `Text(text="hello")` supplies a keyword
argument, so by the claim it must not be flagged; the source checks only
`node.args` and flags it as a `type_error` anyway. -/
theorem keyword_only_call_is_flagged :
    (validateTypeErrors kwOnlyTextScript).errors =
      [sq ++ "Text" ++ sq ++ " requires at least one argument"] ∧
    (validateTypeErrors kwOnlyTextScript).error_type = some ("type_error") := by
  have h : tvStmts [.exprStmt (.call (.name ("Text")) [] [.strLit ("hello")])] =
      ([sq ++ "Text" ++ sq ++ " requires at least one argument"], []) := by
    simp [tvStmts, tvStmt, tvExpr, tvExprs, tvCallFlag, criticalTextFns]
  constructor <;>
    simp [validateTypeErrors, kwOnlyTextScript, h]

/-- C9 (amended): a call to one of the critical constructors/operations is
flagged exactly when it supplies no positional argument; keyword arguments
are not consulted, so a call supplying only keyword arguments is still
flagged. -/
theorem call_flagged_iff_no_positional_args (f : String)
    (args kwargValues : List PyExpr) :
    (tvCallFlag f args kwargValues).isSome =
      (criticalCallNames.any (fun x => x = f) && args.isEmpty) := by
  have hsplit : criticalCallNames.any (fun x => x = f) =
      (criticalTextFns.any (fun x => x = f) ||
       criticalAnimFns.any (fun x => x = f)) := by
    simp [criticalCallNames, criticalTextFns, criticalAnimFns, Bool.or_assoc]
  rw [hsplit]
  unfold tvCallFlag
  rcases hT : criticalTextFns.any (fun x => x = f) <;>
    rcases hA : criticalAnimFns.any (fun x => x = f) <;>
    rcases hE : args.isEmpty <;>
      simp [hT, hA, hE]

/-- C4: for every validator and generator behaviour and every
`max_attempts = N ≥ 1`, the validate-and-regenerate loop terminates with a
result (it never raises on exhausted attempts), performs at most `N`
validation passes (exactly `N` when the final result is invalid, i.e. even
a generator that always returns the same invalid script stops at `N`),
performs exactly one generator call fewer than validation passes (so no
generator call follows a successful validation), returns the last script
together with the `ValidationResult` of validating that very script, and
when the first validation succeeds it returns that script immediately with
one validation pass and no generator calls. -/
theorem validate_and_regenerate_bounded (validate : String → ValidationResult)
    (regen : String → ValidationResult → String) (N : Nat) (code : String)
    (hN : 1 ≤ N) :
    ∃ o : RepairRun, repairLoopGo validate regen N code = some o ∧
      o.validations ≤ N ∧
      o.regens + 1 = o.validations ∧
      o.result = validate o.code ∧
      (o.result.is_valid = false → o.validations = N) ∧
      ((validate code).is_valid = true →
        o.code = code ∧ o.validations = 1 ∧ o.regens = 0) := by
  induction N using Nat.strong_induction_on generalizing code with
  | _ N ih =>
    match N, hN with
    | 1, _ =>
        exact ⟨⟨code, validate code, 1, 0⟩, rfl, le_refl 1, rfl, rfl,
          fun _ => rfl, fun _ => ⟨rfl, rfl, rfl⟩⟩
    | n + 2, _ =>
        cases hv : (validate code).is_valid with
        | true =>
            refine ⟨⟨code, validate code, 1, 0⟩, ?_, by dsimp only; omega, rfl,
              rfl, ?_, fun _ => ⟨rfl, rfl, rfl⟩⟩
            · simp [repairLoopGo, hv]
            · intro hfalse
              dsimp only at hfalse
              simp [hv] at hfalse
        | false =>
            obtain ⟨o, ho, h1, h2, h3, h4, _⟩ :=
              ih (n + 1) (by omega) (regen code (validate code)) (by omega)
            refine ⟨⟨o.code, o.result, o.validations + 1, o.regens + 1⟩, ?_,
              by dsimp only; omega, by dsimp only; omega, h3, ?_, ?_⟩
            · simp [repairLoopGo, hv, ho]
            · intro hfalse
              dsimp only at hfalse ⊢
              have := h4 hfalse
              omega
            · intro h
              exact absurd h (by simp [hv])

/-- C4 witness: with a validator that rejects everything and a generator
returning the same script, `max_attempts = 2` terminates after exactly two
validation passes. -/
theorem validate_and_regenerate_bounded_witness :
    1 ≤ 2 ∧
    ∃ o : RepairRun,
      repairLoopGo alwaysFailValidate identityRegen 2 ("scene") = some o ∧
      o.validations ≤ 2 ∧
      o.regens + 1 = o.validations ∧
      o.result = alwaysFailValidate o.code ∧
      (o.result.is_valid = false → o.validations = 2) ∧
      ((alwaysFailValidate ("scene")).is_valid = true →
        o.code = "scene" ∧ o.validations = 1 ∧ o.regens = 0) :=
  ⟨by decide, validate_and_regenerate_bounded alwaysFailValidate identityRegen
      2 ("scene") (by decide)⟩

/-- Helper: a list defaulted to a one-element fallback when empty is never
empty. -/
theorem if_isEmpty_default_ne_nil (l : List String) (m : String) :
    (if l.isEmpty then [m] else l) ≠ [] := by
  cases l <;> simp

/-- Helper: `add_error` / `add_warning` preserve the invariant of the
render-server `ValidationResult`. -/
theorem rsApply_invariant (r : RSValidationResult)
    (h : r.is_valid = true ↔ r.errors = []) (op : RSOp) :
    ((rsApply r op).is_valid = true ↔ (rsApply r op).errors = []) := by
  cases op with
  | addError m f v => simp [rsApply]
  | addWarning m f v => simpa [rsApply] using h

/-- Helper: the invariant holds after any sequence of render-server
operations from any state satisfying it. -/
theorem rsFold_invariant (ops : List RSOp) (r : RSValidationResult)
    (h : r.is_valid = true ↔ r.errors = []) :
    ((ops.foldl rsApply r).is_valid = true ↔
      (ops.foldl rsApply r).errors = []) := by
  induction ops generalizing r with
  | nil => exact h
  | cons op rest ihr => exact ihr _ (rsApply_invariant r h op)

/-- Helper: the invariant for the combined validator. -/
theorem validateGenerated_invariant (env : String → ImportOutcome)
    (s : Script) (r : ValidationResult)
    (hr : validateGenerated env s = some r) :
    r.is_valid = true ↔ r.errors = [] := by
  cases hp : s.parse with
  | syntaxError msg ln =>
      simp [validateGenerated, validateSyntax, hp] at hr
      rw [← hr]
      simp
  | ok stmts =>
      have hsyn : validateSyntax s =
          { is_valid := true, errors := [], warnings := [] } := by
        simp [validateSyntax, hp]
      unfold validateGenerated at hr
      rw [hsyn] at hr
      simp only [Bool.true_eq_false, if_false] at hr
      cases hrt : validateRuntimeErrors s with
      | none => rw [hrt] at hr; cases hr
      | some runR =>
          rw [hrt] at hr
          simp only [Option.some.injEq] at hr
          rw [← hr]
          simp [List.isEmpty_iff]

/-- Helper: the invariant for the subprocess validator. -/
theorem subprocess_invariant (oc : SubprocessOutcome) (name : String) :
    (validateManimCodeWithSubprocess oc name).is_valid = true ↔
      (validateManimCodeWithSubprocess oc name).errors = [] := by
  cases oc with
  | completed rc so se =>
      by_cases h0 : rc = 0
      · simp [validateManimCodeWithSubprocess, h0]
      · simp only [validateManimCodeWithSubprocess, if_neg h0]
        constructor
        · intro h; cases h
        · intro h; exact absurd h (if_isEmpty_default_ne_nil _ _)
  | timedOut => simp [validateManimCodeWithSubprocess]
  | raisedException msg => simp [validateManimCodeWithSubprocess]

/-- C8: every `ValidationResult` produced by the validation operations
satisfies `is_valid` exactly when the error list is empty: this holds for
every result the combined validator produces, for the subprocess validator
under every subprocess outcome, and for the render-server
`ValidationResult` after any sequence of `add_error` / `add_warning`
operations. -/
theorem is_valid_iff_no_errors :
    (∀ (env : String → ImportOutcome) (s : Script) (r : ValidationResult),
      validateGenerated env s = some r → (r.is_valid = true ↔ r.errors = [])) ∧
    (∀ (oc : SubprocessOutcome) (name : String),
      ((validateManimCodeWithSubprocess oc name).is_valid = true ↔
        (validateManimCodeWithSubprocess oc name).errors = [])) ∧
    (∀ ops : List RSOp,
      ((rsRun ops).is_valid = true ↔ (rsRun ops).errors = [])) :=
  ⟨validateGenerated_invariant, subprocess_invariant,
    fun ops => rsFold_invariant ops rsInit (by simp [rsInit])⟩

/-- Helper: full evaluation of the combined validator on the script
`pass`. -/
theorem passOnly_eval :
    validateGenerated envAllOk passOnlyScript = some passOnlyCombined := by
  have hman : validateManimSpecific passOnlyScript =
      { is_valid := false, errors := [missingSceneMsg, missingConstructMsg],
        warnings := [], scene_name := none } := by
    simp [validateManimSpecific, passOnlyScript, hasSceneClassB, hasConstructB,
      sceneNameOf, classesOfStmts, classesOfStmt]
  have himp : validateImports envAllOk passOnlyScript =
      { is_valid := true, errors := [], warnings := [] } := by
    simp [validateImports, passOnlyScript, importChecksOfStmts,
      importChecksOfStmt]
  have hund : validateUndefinedVariables passOnlyScript =
      { is_valid := true, errors := [], warnings := [], suggestions := [],
        error_type := none } := by
    simp [validateUndefinedVariables, passOnlyScript, nvStmts, nvStmt,
      classifyUndefined]
  have htyp : validateTypeErrors passOnlyScript =
      { is_valid := true, errors := [], warnings := [], suggestions := [],
        error_type := none } := by
    simp [validateTypeErrors, passOnlyScript, tvStmts, tvStmt]
  have hsaf : validateExecutionSafety passOnlyScript.raw =
      { is_valid := true, errors := [], warnings := [] } := by decide
  have hrun : validateRuntimeErrors passOnlyScript = some
      { is_valid := true, errors := [], warnings := [], suggestions := [],
        error_type := none } := rfl
  have hsynR : validateSyntax passOnlyScript =
      { is_valid := true, errors := [], warnings := [] } := rfl
  simp only [validateGenerated]
  rw [hsynR, himp, hman, hund, htyp, hrun, hsaf]
  simp [primaryErrorType, passOnlyCombined]

/-- C8 witness: the invariant instantiated on the concrete script `pass`
(whose combined result is invalid with two errors). -/
theorem is_valid_iff_no_errors_witness :
    validateGenerated envAllOk passOnlyScript = some passOnlyCombined ∧
    (passOnlyCombined.is_valid = true ↔ passOnlyCombined.errors = []) :=
  ⟨passOnly_eval,
    is_valid_iff_no_errors.1 envAllOk passOnlyScript passOnlyCombined
      passOnly_eval⟩

/-- Helper: on a parse-ok script lacking the scene construct, the
manim-specific validator reports a nonempty error list. -/
theorem manim_specific_missing_errors (s : Script) (stmts : List PyStmt)
    (hp : s.parse = ParseOutcome.ok stmts)
    (hmiss : hasSceneClassB stmts = false ∨ hasConstructB stmts = false) :
    (validateManimSpecific s).errors ≠ [] := by
  simp only [validateManimSpecific, hp]
  rcases hmiss with h | h <;> simp [h, List.append_eq_nil]

/-- C1 (amended): for every parseable script lacking the required scene
construct (no class inheriting from `Scene`, or no `construct` method in a
`Scene` class), the combined validator returns `is_valid = false`; its
`error_type` is `"manim_error"` — not `"structural_error"`, which the code
never produces — provided no undefined-variable, type, runtime, or import
errors are also reported (each of those categories outranks the structural
one in the implemented precedence). -/
theorem validate_missing_scene_construct (env : String → ImportOutcome)
    (s : Script) (stmts : List PyStmt) (r : ValidationResult)
    (hp : s.parse = ParseOutcome.ok stmts)
    (hr : validateGenerated env s = some r)
    (hmiss : hasSceneClassB stmts = false ∨ hasConstructB stmts = false) :
    r.is_valid = false ∧
    ((validateUndefinedVariables s).errors = [] →
     (validateTypeErrors s).errors = [] →
     (∀ rr, validateRuntimeErrors s = some rr → rr.errors = []) →
     (validateImports env s).errors = [] →
     r.error_type = some ("manim_error")) := by
  have hman := manim_specific_missing_errors s stmts hp hmiss
  have hsynR : validateSyntax s =
      { is_valid := true, errors := [], warnings := [] } := by
    simp [validateSyntax, hp]
  unfold validateGenerated at hr
  rw [hsynR] at hr
  simp only [Bool.true_eq_false, if_false] at hr
  cases hrt : validateRuntimeErrors s with
  | none => rw [hrt] at hr; cases hr
  | some runR =>
      rw [hrt] at hr
      simp only [Option.some.injEq] at hr
      constructor
      · rw [← hr]
        simp only [List.nil_append]
        simp [List.isEmpty_iff, List.append_eq_nil]
        intro _ h2
        exact absurd h2 hman
      · intro hu ht hrr hi
        have hrunE : runR.errors = [] := hrr runR rfl
        rw [← hr]
        simp [primaryErrorType, hu, ht, hi, hrunE, List.isEmpty_iff, hman]

/-- C1 counterexample: the script `pass` lacks the scene construct; the
combined validator marks it invalid, but with `error_type "manim_error"`,
not `"structural_error"` as the claim states. -/
theorem missing_scene_yields_manim_error_not_structural :
    hasSceneClassB [PyStmt.passStmt] = false ∧
    validateGenerated envAllOk passOnlyScript = some passOnlyCombined ∧
    passOnlyCombined.is_valid = false ∧
    passOnlyCombined.error_type = some ("manim_error") ∧
    passOnlyCombined.error_type ≠ some ("structural_error") := by
  refine ⟨?_, passOnly_eval, rfl, rfl, by simp [passOnlyCombined]⟩
  simp [hasSceneClassB, classesOfStmts, classesOfStmt]

/-- C1 witness: the amended statement instantiated on the script `pass`. -/
theorem validate_missing_scene_construct_witness :
    passOnlyScript.parse = ParseOutcome.ok [PyStmt.passStmt] ∧
    (passOnlyCombined.is_valid = false ∧
     ((validateUndefinedVariables passOnlyScript).errors = [] →
      (validateTypeErrors passOnlyScript).errors = [] →
      (∀ rr, validateRuntimeErrors passOnlyScript = some rr →
        rr.errors = []) →
      (validateImports envAllOk passOnlyScript).errors = [] →
      passOnlyCombined.error_type = some ("manim_error"))) :=
  ⟨rfl, validate_missing_scene_construct envAllOk passOnlyScript
    [PyStmt.passStmt] passOnlyCombined rfl passOnly_eval
    (Or.inl (by simp [hasSceneClassB, classesOfStmts, classesOfStmt]))⟩

/-- C2 (amended): the implemented `error_type` precedence differs from the
claim: a syntax failure returns early with `error_type = None`, and
otherwise the chain is `undefined_variables > type_error > runtime_error >
import_error > manim_error > safety_error` (there is no timeout category
in the combiner, and the structural category is named `manim_error`).  In
particular — contrary to the claim — for every parseable script with both
a structural failure and an undefined-symbol failure, the combined
`error_type` is `"undefined_variables"`, not the structural one. -/
theorem undefined_takes_precedence_over_structural
    (env : String → ImportOutcome) (s : Script) (stmts : List PyStmt)
    (r : ValidationResult)
    (hp : s.parse = ParseOutcome.ok stmts)
    (hr : validateGenerated env s = some r)
    (hu : (validateUndefinedVariables s).errors ≠ []) :
    r.error_type = some ("undefined_variables") ∧ r.is_valid = false := by
  have hsynR : validateSyntax s =
      { is_valid := true, errors := [], warnings := [] } := by
    simp [validateSyntax, hp]
  unfold validateGenerated at hr
  rw [hsynR] at hr
  simp only [Bool.true_eq_false, if_false] at hr
  cases hrt : validateRuntimeErrors s with
  | none => rw [hrt] at hr; cases hr
  | some runR =>
      rw [hrt] at hr
      simp only [Option.some.injEq] at hr
      constructor
      · rw [← hr]
        simp [primaryErrorType, List.isEmpty_iff, hu]
      · rw [← hr]
        simp only [List.nil_append]
        simp [List.isEmpty_iff, List.append_eq_nil]
        intro _ _ _ h5
        exact absurd h5 hu

/-- Helper: the manim-specific errors of `undefNameScript`. -/
theorem undefName_manim_errors :
    validateManimSpecific undefNameScript =
      { is_valid := false,
        errors := [missingSceneMsg, missingConstructMsg],
        warnings := [], scene_name := none } := by
  simp [validateManimSpecific, undefNameScript, hasSceneClassB, hasConstructB,
    sceneNameOf, classesOfStmts, classesOfStmt]

/-- Helper: the undefined-variable result of `undefNameScript`. -/
theorem undefName_undef_result :
    validateUndefinedVariables undefNameScript =
      { is_valid := false, errors := [undefVarMsg], warnings := [],
        suggestions := [undefVarSuggestion],
        error_type := some ("undefined_variables") } := by
  have hnv : nvStmts ⟨[], []⟩
      [.assign ["y"] (.name ("undefined_name"))] =
      ⟨["y"], ["undefined_name"]⟩ := by
    simp [nvStmts, nvStmt, nvExpr, nvLoadName, setAdd]
  have hcls : classifyUndefined ["undefined_name"] =
      ([undefVarMsg], [], [undefVarSuggestion]) := by
    decide
  simp [validateUndefinedVariables, undefNameScript, hnv, hcls]

/-- Helper: full evaluation of the combined validator on
`undefNameScript`. -/
theorem undefName_eval :
    validateGenerated envAllOk undefNameScript = some undefNameCombined := by
  have himp : validateImports envAllOk undefNameScript =
      { is_valid := true, errors := [], warnings := [] } := by
    simp [validateImports, undefNameScript, importChecksOfStmts,
      importChecksOfStmt]
  have htyp : validateTypeErrors undefNameScript =
      { is_valid := true, errors := [], warnings := [], suggestions := [],
        error_type := none } := by
    simp [validateTypeErrors, undefNameScript, tvStmts, tvStmt, tvExpr]
  have hsaf : validateExecutionSafety undefNameScript.raw =
      { is_valid := true, errors := [], warnings := [] } := by decide
  have hrun : validateRuntimeErrors undefNameScript = some
      { is_valid := true, errors := [], warnings := [], suggestions := [],
        error_type := none } := rfl
  have hsynR : validateSyntax undefNameScript =
      { is_valid := true, errors := [], warnings := [] } := rfl
  simp only [validateGenerated]
  rw [hsynR, himp, undefName_manim_errors, undefName_undef_result, htyp,
    hrun, hsaf]
  simp [primaryErrorType, undefNameCombined]

/-- C2 counterexample: the script `y = undefined_name` has both a
structural failure (no scene construct) and an undefined-symbol failure;
the combined `error_type` is `"undefined_variables"`, not the structural
one, refuting the claimed precedence `structural_error >
undefined_variables`. -/
theorem structural_plus_undefined_yields_undefined_variables :
    (validateManimSpecific undefNameScript).errors ≠ [] ∧
    (validateUndefinedVariables undefNameScript).errors ≠ [] ∧
    validateGenerated envAllOk undefNameScript = some undefNameCombined ∧
    undefNameCombined.error_type = some ("undefined_variables") ∧
    undefNameCombined.error_type ≠ some ("manim_error") ∧
    undefNameCombined.error_type ≠ some ("structural_error") := by
  refine ⟨?_, ?_, undefName_eval, rfl, by simp [undefNameCombined],
    by simp [undefNameCombined]⟩
  · rw [undefName_manim_errors]; simp
  · rw [undefName_undef_result]; simp

/-- C2 witness: the amended precedence statement instantiated on
`y = undefined_name`. -/
theorem undefined_takes_precedence_over_structural_witness :
    undefNameScript.parse =
      ParseOutcome.ok [.assign ["y"] (.name ("undefined_name"))] ∧
    (validateUndefinedVariables undefNameScript).errors ≠ [] ∧
    (undefNameCombined.error_type = some ("undefined_variables") ∧
     undefNameCombined.is_valid = false) :=
  ⟨rfl, by rw [undefName_undef_result]; simp,
    undefined_takes_precedence_over_structural envAllOk undefNameScript
      [.assign ["y"] (.name ("undefined_name"))] undefNameCombined rfl
      undefName_eval (by rw [undefName_undef_result]; simp)⟩

/-- Helper: the matched-point counter of the sync-point loop counts
exactly the points whose closest event lies within the tolerance. -/
theorem syncFold_count (tol : ℚ) (events : List TimingEvent) :
    ∀ (points : List SyncPoint) (acc : Nat × List SyncIssue),
      (points.foldl (syncStep tol events) acc).1 =
        acc.1 + points.countP (syncPointMatched tol events) := by
  intro points
  induction points with
  | nil => intro acc; simp
  | cons p rest ih =>
      intro acc
      simp only [List.foldl_cons, List.countP_cons, ih]
      cases hc : closestScan events p.time with
      | none => simp [syncStep, syncPointMatched, hc]
      | some pr =>
          by_cases hle : pr.2 ≤ tol
          · simp [syncStep, syncPointMatched, hc, hle]
            try omega
          · simp [syncStep, syncPointMatched, hc, hle]
            try omega

/-- C5: for every timing model, target duration (nonnegative, as durations
are), sync-point list and configuration, the sync validation computes
`duration_score = max 0 (1 - |total_duration - target| / target)` (and `0`
when the target is zero), `sync_score` as the matched fraction of sync
points (`1` when the list is empty), and
`confidence = 0.4 * duration_score + 0.6 * sync_score`. -/
theorem sync_scores_formulas (cfg : SyncCfg) (timing : AnimationTiming)
    (target : ℚ) (points : List SyncPoint) (h : 0 ≤ target) :
    (validateSyncCore cfg timing target points).duration_score =
      (if target = 0 then 0
       else max 0 (1 - |timing.total_duration - target| / target)) ∧
    (validateSyncCore cfg timing target points).sync_score =
      (if points = [] then 1
       else ((points.countP (syncPointMatched (cfg.timing_tolerance_ms / 1000)
          timing.timing_events) : ℚ) / (points.length : ℚ))) ∧
    (validateSyncCore cfg timing target points).confidence =
      (4/10) * (validateSyncCore cfg timing target points).duration_score +
      (6/10) * (validateSyncCore cfg timing target points).sync_score := by
  refine ⟨?_, ?_, ?_⟩
  · simp only [validateSyncCore]
    rcases eq_or_lt_of_le h with h0 | hpos
    · rw [← h0]; simp
    · rw [if_pos hpos, if_neg (ne_of_gt hpos)]
  · simp only [validateSyncCore, validateSyncPoints, syncPointsScan]
    by_cases hp : points = []
    · simp [hp]
    · simp [List.isEmpty_iff, hp, syncFold_count]
  · simp only [validateSyncCore]
    ring

/-- C5 witness: the formulas instantiated at total duration 4, target 10
and no sync points (the worked example of the specification). -/
theorem sync_scores_formulas_witness :
    (0 : ℚ) ≤ 10 ∧
    ((validateSyncCore syncCfg0 timing0 10 []).duration_score =
      (if (10 : ℚ) = 0 then 0
       else max 0 (1 - |timing0.total_duration - 10| / 10)) ∧
    (validateSyncCore syncCfg0 timing0 10 []).sync_score =
      (if ([] : List SyncPoint) = [] then 1
       else ((([] : List SyncPoint).countP
          (syncPointMatched (syncCfg0.timing_tolerance_ms / 1000)
            timing0.timing_events) : ℚ) / (([] : List SyncPoint).length : ℚ))) ∧
    (validateSyncCore syncCfg0 timing0 10 []).confidence =
      (4/10) * (validateSyncCore syncCfg0 timing0 10 []).duration_score +
      (6/10) * (validateSyncCore syncCfg0 timing0 10 []).sync_score) :=
  ⟨by decide, sync_scores_formulas syncCfg0 timing0 10 [] (by decide)⟩

/-- Helper: `eval` of the literal `2` captured from `self.wait(2)`. -/
theorem parseNumLit_two : parseNumLit ['2'] = some 2 := by
  have h1 : parseNumParts ['2'] = some (false, ['2'], []) := by decide
  have h2 : digitsToNat ['2'] = 2 := by decide
  have h3 : digitsToNat ([] : List Char) = 0 := rfl
  simp [parseNumLit, h1, partsToRat, h2, h3]

/-- C6: on the example script (a scene construct with an entry-point
routine, one hold `self.wait(2)` and one transition
`self.play(Write(text), run_time=1.5)`), timing extraction produces the
two expected events at start times 0.0 and 2.0, but the total duration is
3.0, not the claimed 3.5: group 1 of the play regex never matches (its
greedy `[^)]+` always runs to the first closing parenthesis, where the
optional `run_time` group cannot start), so the explicit `run_time=1.5` is
replaced by the default duration 1.0, although the dedicated
`if match.group(1):` branch of the source shows the intent to honour it. -/
theorem extract_timing_ignores_run_time :
    extractAnimationTiming holdAndTransitionScript =
      { total_duration := 3, wait_times := [2], play_times := [1],
        timing_events := [⟨"wait", 0, 2, 3⟩, ⟨"animation", 2, 1, 4⟩],
        event_count := 2 } ∧
    (extractAnimationTiming holdAndTransitionScript).total_duration ≠ 7/2 := by
  have hw : scanWaits holdAndTransitionScript.data = [['2']] := by decide
  have hp : scanPlaysCount holdAndTransitionScript.data = 1 := by decide
  have hl : (splitLines holdAndTransitionScript.data).map lineKind =
      [LineKind.skip, LineKind.skip, LineKind.waitCap ['2'], LineKind.play,
       LineKind.skip] := by decide
  have hassemble : assembleEvents
      [LineKind.skip, LineKind.skip, LineKind.waitCap ['2'], LineKind.play,
       LineKind.skip] 1 0 =
      Except.ok [⟨"wait", 0, 2, 3⟩, ⟨"animation", 2, 1, 4⟩] := by
    simp [assembleEvents, parseNumLit_two, Except.map]
  have hmain : extractAnimationTiming holdAndTransitionScript =
      { total_duration := 3, wait_times := [2], play_times := [1],
        timing_events := [⟨"wait", 0, 2, 3⟩, ⟨"animation", 2, 1, 4⟩],
        event_count := 2 } := by
    simp only [extractAnimationTiming]
    rw [hw, hp, hl, hassemble]
    simp [parseNumLit_two]
    norm_num
  refine ⟨hmain, ?_⟩
  rw [hmain]
  norm_num

end AnSci
